import Mathlib

/-!
Verification of the hildebrand_glow Home Assistant integration.

This file gives a shallow embedding of the data-transformation and API-client
logic of the integration (`coordinator/base.py` and `api/client.py`) and
proves the specified properties about it.  Numeric wire values are modelled
as exact rationals; Python `round(x, n)` is modelled as round-half-to-even
at `n` decimal places; clock times are modelled as integer seconds.
-/

namespace HildebrandGlow

/-- Round-half-to-even of a rational to an integer, the tie-breaking rule of
Python `round` on exact decimal values. -/
def rhe (x : ℚ) : ℤ :=
  let f := ⌊x⌋
  if x - f < 1 / 2 then f
  else if x - f > 1 / 2 then f + 1
  else if f % 2 = 0 then f else f + 1

/-- Python `round(x, n)`: round-half-to-even at `n` decimal places. -/
def roundTo (n : ℕ) (x : ℚ) : ℚ :=
  (rhe (x * 10 ^ n) : ℚ) / 10 ^ n

/-- Python `s.startswith(p)`, modelled on the character lists. -/
def strStartsWith (s p : String) : Bool :=
  p.data.isPrefixOf s.data

/-- Boolean infix test on character lists. -/
def charsInfixOf (p : List Char) : List Char → Bool
  | [] => p.isPrefixOf []
  | c :: t => p.isPrefixOf (c :: t) || charsInfixOf p t

/-- Python `p in s` for strings, modelled on the character lists. -/
def strContains (s p : String) : Bool :=
  charsInfixOf p.data s.data

/-! ### Constants from `const.py` -/

def CLASSIFIER_ELECTRICITY_CONSUMPTION : String := "electricity.consumption"

def CLASSIFIER_ELECTRICITY_COST : String := "electricity.consumption.cost"

def CLASSIFIER_GAS_CONSUMPTION : String := "gas.consumption"

def CLASSIFIER_GAS_COST : String := "gas.consumption.cost"

/-! ### Readings responses (`_extract_reading_value`)

One entry of a readings `data` array is a JSON array whose elements are
numbers or null (`none`); well-formed entries are `[timestamp, value]`
pairs, but the code tolerates shorter arrays and null values. -/

abbrev ReadingItem := List (Option ℚ)

/-- A readings response; `data = none` models a response without a `"data"`
key (Python `reading_data.get("data", [])` then yields `[]`).  An absent or
falsy (empty-dict) response is modelled by `none` at the use sites. -/
structure ReadingsResp where
  data : Option (List ReadingItem)
deriving DecidableEq

/-- The summand selected from one entry: `item[1]` when
`len(item) >= 2 and item[1] is not None`, nothing otherwise. -/
def itemValue (item : ReadingItem) : Option ℚ :=
  if 2 ≤ item.length then item.getD 1 none else none

/-- Python `sum(item[1] for item in data if len(item) >= 2 and item[1] is not None)`. -/
def readingSum (data : List ReadingItem) : ℚ :=
  (data.filterMap itemValue).sum

/-- Method `_extract_reading_value` from `coordinator/base.py`. -/
def extract_reading_value (rd : Option ReadingsResp) : Option ℚ :=
  match rd with
  | none => none
  | some r =>
    let data := r.data.getD []
    if data.isEmpty then none
    else some (roundTo 3 (readingSum data))

/-! ### Tariff responses (`_extract_tariff_rate`, `_extract_standing_charge`) -/

structure CurrentRates where
  rate : Option ℚ
  standingCharge : Option ℚ
deriving DecidableEq

/-- One entry of a tariff `data` array; `currentRates = none` models an
entry without a `"currentRates"` key (the code then uses `{}`). -/
structure TariffEntry where
  currentRates : Option CurrentRates
deriving DecidableEq

structure TariffResp where
  data : Option (List TariffEntry)
deriving DecidableEq

/-- Method `_extract_tariff_rate` from `coordinator/base.py`. -/
def extract_tariff_rate (td : Option TariffResp) : Option ℚ :=
  match td with
  | none => none
  | some t =>
    match t.data.getD [] with
    | [] => none
    | e :: _ =>
      match (e.currentRates.getD ⟨none, none⟩).rate with
      | none => none
      | some r => some (roundTo 4 r)

/-- Method `_extract_standing_charge` from `coordinator/base.py`. -/
def extract_standing_charge (td : Option TariffResp) : Option ℚ :=
  match td with
  | none => none
  | some t =>
    match t.data.getD [] with
    | [] => none
    | e :: _ =>
      match (e.currentRates.getD ⟨none, none⟩).standingCharge with
      | none => none
      | some c => some (roundTo 2 c)

/-- Method `_pence_to_gbp` from `coordinator/base.py`. -/
def pence_to_gbp : Option ℚ → Option ℚ
  | none => none
  | some pence => some (roundTo 2 (pence / 100))

/-! ### Raw meter data and `_transform_data` -/

/-- A virtual entity as returned by `GET /virtualentity`. -/
structure VirtualEntity where
  veId : Option String
  name : Option String
  postalCode : Option String
deriving DecidableEq

/-- A resource as returned by `GET /virtualentity/{id}/resources`. -/
structure Resource where
  resourceId : Option String
  classifier : Option String
deriving DecidableEq

/-- The per-meter raw data assembled by `async_get_data`: the virtual
entity, its resources, and string-keyed maps of readings, PT1M current
readings, and tariffs. -/
structure RawMeter where
  virtual_entity : VirtualEntity
  resources : List Resource
  readings : String → Option ReadingsResp
  current : String → Option ReadingsResp
  tariffs : String → Option TariffResp

/-- The transformed per-meter record built by `_transform_data`. -/
structure MeterRecord where
  meter_id : String
  name : String
  postal_code : Option String
  model : String
  has_electricity : Bool
  has_gas : Bool
  electricity_usage_today : Option ℚ
  electricity_usage_week : Option ℚ
  electricity_usage_month : Option ℚ
  electricity_cost_today : Option ℚ
  electricity_cost_week : Option ℚ
  electricity_cost_month : Option ℚ
  gas_usage_today : Option ℚ
  gas_usage_week : Option ℚ
  gas_usage_month : Option ℚ
  gas_cost_today : Option ℚ
  gas_cost_week : Option ℚ
  gas_cost_month : Option ℚ
  electricity_rate : Option ℚ
  electricity_standing_charge : Option ℚ
  gas_rate : Option ℚ
  gas_standing_charge : Option ℚ

/-- The per-meter body of `_transform_data` from `coordinator/base.py`. -/
def transform_meter (meter_id : String) (m : RawMeter) : MeterRecord :=
  let ve := m.virtual_entity
  let readings := m.readings
  let tariffs := m.tariffs
  let has_electricity :=
    m.resources.any fun r => strStartsWith (r.classifier.getD "") "electricity"
  let has_gas :=
    m.resources.any fun r => strStartsWith (r.classifier.getD "") "gas"
  let model :=
    if has_electricity && has_gas then "Electricity & Gas Smart Meter"
    else if has_electricity then "Electricity Smart Meter"
    else if has_gas then "Gas Smart Meter"
    else "Smart Meter"
  { meter_id := meter_id
    name := ve.name.getD "Smart Meter"
    postal_code := ve.postalCode
    model := model
    has_electricity := has_electricity
    has_gas := has_gas
    electricity_usage_today :=
      extract_reading_value (readings (CLASSIFIER_ELECTRICITY_CONSUMPTION ++ "_today"))
    electricity_usage_week :=
      extract_reading_value (readings (CLASSIFIER_ELECTRICITY_CONSUMPTION ++ "_week"))
    electricity_usage_month :=
      extract_reading_value (readings (CLASSIFIER_ELECTRICITY_CONSUMPTION ++ "_month"))
    electricity_cost_today :=
      pence_to_gbp (extract_reading_value (readings (CLASSIFIER_ELECTRICITY_COST ++ "_today")))
    electricity_cost_week :=
      pence_to_gbp (extract_reading_value (readings (CLASSIFIER_ELECTRICITY_COST ++ "_week")))
    electricity_cost_month :=
      pence_to_gbp (extract_reading_value (readings (CLASSIFIER_ELECTRICITY_COST ++ "_month")))
    gas_usage_today :=
      extract_reading_value (readings (CLASSIFIER_GAS_CONSUMPTION ++ "_today"))
    gas_usage_week :=
      extract_reading_value (readings (CLASSIFIER_GAS_CONSUMPTION ++ "_week"))
    gas_usage_month :=
      extract_reading_value (readings (CLASSIFIER_GAS_CONSUMPTION ++ "_month"))
    gas_cost_today :=
      pence_to_gbp (extract_reading_value (readings (CLASSIFIER_GAS_COST ++ "_today")))
    gas_cost_week :=
      pence_to_gbp (extract_reading_value (readings (CLASSIFIER_GAS_COST ++ "_week")))
    gas_cost_month :=
      pence_to_gbp (extract_reading_value (readings (CLASSIFIER_GAS_COST ++ "_month")))
    electricity_rate :=
      extract_tariff_rate (tariffs CLASSIFIER_ELECTRICITY_CONSUMPTION)
    electricity_standing_charge :=
      pence_to_gbp (extract_standing_charge (tariffs CLASSIFIER_ELECTRICITY_CONSUMPTION))
    gas_rate :=
      extract_tariff_rate (tariffs CLASSIFIER_GAS_CONSUMPTION)
    gas_standing_charge :=
      pence_to_gbp (extract_standing_charge (tariffs CLASSIFIER_GAS_CONSUMPTION)) }

/-- Method `_transform_data`: transform every meter of the raw snapshot. -/
def transform_data (raw : List (String × RawMeter)) : List (String × MeterRecord) :=
  raw.map fun p => (p.1, transform_meter p.1 p.2)

/-! ### API client (`api/client.py`)

The aiohttp session is abstracted into response oracles; time is an
integer count of seconds. -/

abbrev Time := ℤ

/-- Constant `TOKEN_LIFETIME_SECONDS = 55 * 60` from `api/client.py`. -/
def TOKEN_LIFETIME_SECONDS : Time := 55 * 60

/-- The mutable token state of the client. -/
structure ClientState where
  token : Option String
  token_expiry : Option Time
deriving DecidableEq

/-- The three exception classes of `api/client.py`: authentication error,
communication error, and the generic base error. -/
inductive ApiErr where
  | auth
  | comm
  | other
deriving DecidableEq

/-- Outcome of one HTTP exchange of the `POST /auth` call: an HTTP status
with the decoded body fields, a timeout, or a connection failure. -/
inductive AuthResponse where
  | status (code : ℕ) (valid : Bool) (token : Option String)
  | timeout
  | connError
deriving DecidableEq

/-- Method `async_authenticate`: returns the token or the raised error, together
with the client state after the call (Python mutates `self`). -/
def async_authenticate (st : ClientState) (now : Time) (resp : AuthResponse) :
    Except ApiErr String × ClientState :=
  match resp with
  | .timeout => (.error .comm, st)
  | .connError => (.error .comm, st)
  | .status code valid token =>
    if code = 401 ∨ code = 403 then (.error .auth, st)
    else if 400 ≤ code then (.error .comm, st)
    else if !valid then (.error .auth, st)
    else
      let st1 : ClientState := { st with token := token }
      match token with
      | none => (.error .auth, st1)
      | some t =>
        if t = "" then (.error .auth, st1)
        else (.ok t, { st1 with token_expiry := some (now + TOKEN_LIFETIME_SECONDS) })

/-- Method `_is_token_expired`: true when no token or no expiry is stored (or the
stored token is the falsy empty string), or when less than one minute of
validity remains. -/
def is_token_expired (st : ClientState) (now : Time) : Bool :=
  match st.token, st.token_expiry with
  | some t, some expiry => if t = "" then true else decide (expiry - 60 ≤ now)
  | _, _ => true

/-- Method `_ensure_authenticated`; the second component counts the
`async_authenticate` calls made. -/
def ensure_authenticated (st : ClientState) (now : Time) (resp : AuthResponse) :
    (Except ApiErr Unit × ClientState) × ℕ :=
  if is_token_expired st now then
    let r := async_authenticate st now resp
    ((r.1.map fun _ => (), r.2), 1)
  else ((.ok (), st), 0)

/-- Outcome of one HTTP exchange of a data request. -/
inductive ReqResponse where
  | status (code : ℕ) (body : String)
  | timeout
  | connError
deriving DecidableEq

/-- Instrumentation of one `_api_request` run: the client states passed to
each `async_authenticate` call, and the number of HTTP requests issued. -/
structure ApiTrace where
  auth_states : List ClientState
  requests : ℕ
deriving DecidableEq

/-- How an error raised by the nested `async_authenticate` call inside the
`try` block of `_api_request` is re-raised by the `except` ladder: the
authentication error propagates unchanged, while the communication error
class of this client is not an `aiohttp` error and falls through to the
final `except Exception`, which wraps it into the generic error. -/
def wrapNestedAuthErr : ApiErr → ApiErr
  | .auth => .auth
  | .comm => .other
  | .other => .other

/-- Python `response.raise_for_status()` followed by `response.json()`: status
400 and above raises `aiohttp.ClientResponseError`, which the `except`
ladder converts into the communication error. -/
def process_status (code : ℕ) (body : String) : Except ApiErr String :=
  if 400 ≤ code then .error .comm else .ok body

/-- The `try` body of `_api_request`, after `_ensure_authenticated`:
issue the request; on a 401/403 clear the token, re-authenticate and retry
once; a second 401/403 raises the authentication error. -/
def api_request_try (st : ClientState) (now : Time) (authRetry : AuthResponse)
    (resp1 resp2 : ReqResponse) (tr : ApiTrace) :
    Except ApiErr String × ClientState × ApiTrace :=
  match resp1 with
  | .timeout => (.error .comm, st, { tr with requests := tr.requests + 1 })
  | .connError => (.error .comm, st, { tr with requests := tr.requests + 1 })
  | .status c1 b1 =>
    let tr1 : ApiTrace := { tr with requests := tr.requests + 1 }
    if c1 = 401 ∨ c1 = 403 then
      let stc : ClientState := { st with token := none }
      let tr2 : ApiTrace := { tr1 with auth_states := tr1.auth_states ++ [stc] }
      match async_authenticate stc now authRetry with
      | (.error e, st1) => (.error (wrapNestedAuthErr e), st1, tr2)
      | (.ok _, st1) =>
        let tr3 : ApiTrace := { tr2 with requests := tr2.requests + 1 }
        match resp2 with
        | .timeout => (.error .comm, st1, tr3)
        | .connError => (.error .comm, st1, tr3)
        | .status c2 b2 =>
          if c2 = 401 ∨ c2 = 403 then (.error .auth, st1, tr3)
          else (process_status c2 b2, st1, tr3)
    else (process_status c1 b1, st, tr1)

/-- Method `_api_request`: first `_ensure_authenticated` (whose errors propagate
unwrapped, being outside the `try`), then the request/retry body.
`authEnsure` answers an authentication triggered by an expired token,
`authRetry` one triggered by a 401/403, and `resp1`/`resp2` answer the
first and the retried request. -/
def api_request (st : ClientState) (now : Time) (authEnsure authRetry : AuthResponse)
    (resp1 resp2 : ReqResponse) :
    Except ApiErr String × ClientState × ApiTrace :=
  if is_token_expired st now then
    match async_authenticate st now authEnsure with
    | (.error e, st1) => (.error e, st1, ⟨[st], 0⟩)
    | (.ok _, st1) => api_request_try st1 now authRetry resp1 resp2 ⟨[st], 0⟩
  else api_request_try st now authRetry resp1 resp2 ⟨[], 0⟩

/-! ### `async_get_data` -/

/-- The four readings windows fetched per resource. -/
inductive Window where
  | pt1m
  | today
  | week
  | month
deriving DecidableEq

/-- Oracles answering the HTTP calls made by `async_get_data`: the virtual
entity list, the per-entity resource list, the per-resource readings for
each window, and the per-resource tariff. -/
structure Env where
  virtual_entities : Except ApiErr (List VirtualEntity)
  resources : String → Except ApiErr (List Resource)
  readings : String → Window → Except ApiErr ReadingsResp
  tariff : String → Except ApiErr TariffResp

/-- Update a string-keyed map, as a Python dict item assignment. -/
def mapSet {α : Type} (m : String → Option α) (k : String) (v : α) :
    String → Option α :=
  fun q => if q = k then some v else m q

/-- The `meter_data` skeleton built before the per-resource loop. -/
def emptyRawMeter (ve : VirtualEntity) (resources : List Resource) : RawMeter :=
  { virtual_entity := ve
    resources := resources
    readings := fun _ => none
    current := fun _ => none
    tariffs := fun _ => none }

/-- The body of the per-resource loop of `async_get_data`: each sub-fetch
is wrapped in `try/except HildebrandGlowEnergyMonitorApiClientError`, so
any error of any kind only omits the corresponding key. -/
def process_resource (env : Env) (m : RawMeter) (r : Resource) : RawMeter :=
  match r.resourceId with
  | none => m
  | some rid =>
    if rid = "" then m
    else
      let classifier := r.classifier.getD ""
      let m1 :=
        if strContains classifier "cost" then m
        else
          match env.readings rid .pt1m with
          | .ok cur => { m with current := mapSet m.current classifier cur }
          | .error _ => m
      let m2 :=
        match env.readings rid .today with
        | .ok x => { m1 with readings := mapSet m1.readings (classifier ++ "_today") x }
        | .error _ => m1
      let m3 :=
        match env.readings rid .week with
        | .ok x => { m2 with readings := mapSet m2.readings (classifier ++ "_week") x }
        | .error _ => m2
      let m4 :=
        match env.readings rid .month with
        | .ok x => { m3 with readings := mapSet m3.readings (classifier ++ "_month") x }
        | .error _ => m3
      if strContains classifier "cost" then m4
      else
        match env.tariff rid with
        | .ok t => { m4 with tariffs := mapSet m4.tariffs classifier t }
        | .error _ => m4

/-- Assemble the raw data of one virtual entity. -/
def build_meter (env : Env) (ve : VirtualEntity) (resources : List Resource) :
    RawMeter :=
  resources.foldl (process_resource env) (emptyRawMeter ve resources)

/-- The virtual-entity loop of `async_get_data`: entities with a falsy
`veId` are skipped; a failing resource-list fetch aborts the whole call. -/
def get_data_meters (env : Env) : List VirtualEntity → Except ApiErr (List (String × RawMeter))
  | [] => .ok []
  | ve :: rest =>
    match ve.veId with
    | none => get_data_meters env rest
    | some vid =>
      if vid = "" then get_data_meters env rest
      else
        match env.resources vid with
        | .error e => .error e
        | .ok rs =>
          match get_data_meters env rest with
          | .error e => .error e
          | .ok ms => .ok ((vid, build_meter env ve rs) :: ms)

/-- Method `async_get_data`: fetch the virtual entities and assemble the meters
dictionary. -/
def async_get_data (env : Env) : Except ApiErr (List (String × RawMeter)) :=
  match env.virtual_entities with
  | .error e => .error e
  | .ok ves => get_data_meters env ves

/-! ## Spec-side characterisations -/

/-- An entry counted by the reading sum: length at least 2 and a non-null
second component. -/
def validItem (item : ReadingItem) : Bool :=
  decide (2 ≤ item.length) && (item.getD 1 none).isSome

/-- Spec-side reading total: the sum of the second components of exactly
the valid entries. -/
def specReadingTotal (data : List ReadingItem) : ℚ :=
  ((data.filter validItem).map fun item => (item.getD 1 none).getD 0).sum

lemma readingSum_eq_spec (data : List ReadingItem) :
    readingSum data = specReadingTotal data := by
  induction data with
  | nil => rfl
  | cons i t ih =>
    unfold readingSum specReadingTotal at ih ⊢
    by_cases hl : 2 ≤ i.length
    · cases hv : i[1]?.getD none with
      | none =>
        simp [List.filterMap_cons, List.filter_cons, itemValue, validItem, hl, hv, ih,
          List.getD]
      | some v =>
        simp [List.filterMap_cons, List.filter_cons, itemValue, validItem, hl, hv, ih,
          List.getD]
    · simp [List.filterMap_cons, List.filter_cons, itemValue, validItem, hl, ih,
        List.getD]

/-! ### Concrete test inputs -/

/-- Concrete input for the C1 witness: two valid entries summing to 7/2,
one short entry, one null-valued entry. -/
def sampleReadings : List ReadingItem :=
  [[some 0, some (3 / 2)], [some 1], [some 2, none], [some 3, some 2]]

/-- Concrete swapped inputs for the C10 witness. -/
def samplePermA : List ReadingItem := [[some 0, some 1], [some 1, some 2]]

/-- List `samplePermA` with its two entries exchanged. -/
def samplePermB : List ReadingItem := [[some 1, some 2], [some 0, some 1]]

/-- A raw meter whose only resource has classifier
`electricity.consumption`. -/
def elecOnlyRaw : RawMeter :=
  { virtual_entity := ⟨some "ve1", some "Home", none⟩
    resources := [⟨some "r1", some "electricity.consumption"⟩]
    readings := fun _ => none
    current := fun _ => none
    tariffs := fun _ => none }

/-- A raw meter with no readings data at all. -/
def noDataRawMeter : RawMeter := emptyRawMeter ⟨some "ve1", some "Home", none⟩ []

/-- Tariff response with wire rate 15.2345 and wire standing charge 3.4999
(a fractional-pence value exposing the double rounding of the code). -/
def cexTariff : TariffResp :=
  ⟨some [⟨some ⟨some (152345 / 10000), some (34999 / 10000)⟩⟩]⟩

/-- A raw meter carrying `cexTariff` for every classifier. -/
def cexRawMeter : RawMeter :=
  { virtual_entity := ⟨some "ve1", some "Home", none⟩
    resources := [⟨some "r1", some "electricity.consumption"⟩]
    readings := fun _ => none
    current := fun _ => none
    tariffs := fun _ => some cexTariff }

/-- The tariff response of the spec example: rate 15.2345, standing charge
4567 pence. -/
def exampleTariff : TariffResp :=
  ⟨some [⟨some ⟨some (152345 / 10000), some 4567⟩⟩]⟩

/-- A raw meter carrying `exampleTariff` for every classifier. -/
def exampleRawMeter : RawMeter :=
  { virtual_entity := ⟨some "ve1", some "Home", none⟩
    resources := [⟨some "r1", some "electricity.consumption"⟩]
    readings := fun _ => none
    current := fun _ => none
    tariffs := fun _ => some exampleTariff }

/-- The meters-dictionary key contributed by one virtual entity: its
`veId` when truthy. -/
def veKey (ve : VirtualEntity) : Option String :=
  match ve.veId with
  | none => none
  | some v => if v = "" then none else some v

/-- Concrete environment for the C9 witness: two virtual entities, one
resource each; the week readings fetch fails with an authentication error
and the month fetch with a communication error, everything else
succeeds. -/
def witnessEnv : Env :=
  { virtual_entities := .ok [⟨some "ve1", some "Home", none⟩, ⟨some "ve2", none, none⟩]
    resources := fun _ => .ok [⟨some "r1", some "electricity.consumption"⟩]
    readings := fun _ w =>
      match w with
      | .week => .error .auth
      | .month => .error .comm
      | _ => .ok ⟨some [[some 0, some 1]]⟩
    tariff := fun _ => .ok ⟨some []⟩ }

/-! ## C1 -/

/-- C1: for every readings response passed to `_extract_reading_value`, an
absent response, or an absent or empty `data` list, yields `none`;
otherwise the result is the sum of the second components of exactly the
entries of length at least 2 with a non-null value, rounded to 3
decimals. -/
theorem extract_reading_value_spec :
    extract_reading_value none = none
    ∧ (∀ r : ReadingsResp, r.data = none → extract_reading_value (some r) = none)
    ∧ (∀ r : ReadingsResp, r.data = some [] → extract_reading_value (some r) = none)
    ∧ (∀ (r : ReadingsResp) (data : List ReadingItem),
        r.data = some data → data ≠ [] →
        extract_reading_value (some r) = some (roundTo 3 (specReadingTotal data))) := by
  refine ⟨rfl, ?_, ?_, ?_⟩
  · intro r h
    simp [extract_reading_value, h]
  · intro r h
    simp [extract_reading_value, h]
  · intro r data h hne
    simp [extract_reading_value, h, hne, readingSum_eq_spec]

theorem extract_reading_value_spec_witness :
    sampleReadings ≠ []
    ∧ extract_reading_value (some ⟨some sampleReadings⟩)
        = some (roundTo 3 (specReadingTotal sampleReadings)) :=
  ⟨List.cons_ne_nil _ _,
    extract_reading_value_spec.2.2.2 ⟨some sampleReadings⟩ sampleReadings rfl
      (List.cons_ne_nil _ _)⟩

/-! ## C10 -/

/-- C10: the extracted reading total does not depend on the ordering of
the entries of the `data` list. -/
theorem extract_reading_value_perm (d1 d2 : List ReadingItem) (h : d1.Perm d2) :
    extract_reading_value (some ⟨some d1⟩) = extract_reading_value (some ⟨some d2⟩) := by
  have hsum : readingSum d1 = readingSum d2 :=
    (List.Perm.filterMap itemValue h).sum_eq
  have hlen := h.length_eq
  have hemp : d1.isEmpty = d2.isEmpty := by
    cases d1 <;> cases d2 <;> simp_all
  simp only [extract_reading_value, Option.getD_some]
  rw [hemp, hsum]

theorem extract_reading_value_perm_witness :
    samplePermA.Perm samplePermB
    ∧ extract_reading_value (some ⟨some samplePermA⟩)
        = extract_reading_value (some ⟨some samplePermB⟩) :=
  ⟨List.Perm.swap _ _ _, extract_reading_value_perm _ _ (List.Perm.swap _ _ _)⟩

/-! ## C6 -/

/-- C6: `has_electricity` holds iff some resource classifier starts with
"electricity", `has_gas` iff some classifier starts with "gas"; the model
string is determined by the two flags; resources
`["electricity.consumption"]` give an electricity-only record. -/
theorem meter_flags_model_spec (mid : String) (raw : RawMeter) :
    ((transform_meter mid raw).has_electricity = true
      ↔ ∃ r ∈ raw.resources, strStartsWith (r.classifier.getD "") "electricity" = true)
    ∧ ((transform_meter mid raw).has_gas = true
      ↔ ∃ r ∈ raw.resources, strStartsWith (r.classifier.getD "") "gas" = true)
    ∧ (transform_meter mid raw).model =
        (if (transform_meter mid raw).has_electricity && (transform_meter mid raw).has_gas
          then "Electricity & Gas Smart Meter"
          else if (transform_meter mid raw).has_electricity then "Electricity Smart Meter"
          else if (transform_meter mid raw).has_gas then "Gas Smart Meter"
          else "Smart Meter")
    ∧ (transform_meter "m1" elecOnlyRaw).has_electricity = true
    ∧ (transform_meter "m1" elecOnlyRaw).has_gas = false
    ∧ (transform_meter "m1" elecOnlyRaw).model = "Electricity Smart Meter" := by
  refine ⟨List.any_eq_true, List.any_eq_true, rfl, by decide, by decide, by decide⟩

/-! ## C7 -/

/-- C7: a meter with zero resources transforms to a record with both flags
false, model "Smart Meter", and every electricity/gas usage, cost, rate
and standing-charge field `none`. -/
theorem zero_resources_spec (env : Env) (ve : VirtualEntity) (mid : String) :
    (build_meter env ve []).resources = []
    ∧ (transform_meter mid (build_meter env ve [])).has_electricity = false
    ∧ (transform_meter mid (build_meter env ve [])).has_gas = false
    ∧ (transform_meter mid (build_meter env ve [])).model = "Smart Meter"
    ∧ (transform_meter mid (build_meter env ve [])).electricity_usage_today = none
    ∧ (transform_meter mid (build_meter env ve [])).electricity_usage_week = none
    ∧ (transform_meter mid (build_meter env ve [])).electricity_usage_month = none
    ∧ (transform_meter mid (build_meter env ve [])).electricity_cost_today = none
    ∧ (transform_meter mid (build_meter env ve [])).electricity_cost_week = none
    ∧ (transform_meter mid (build_meter env ve [])).electricity_cost_month = none
    ∧ (transform_meter mid (build_meter env ve [])).gas_usage_today = none
    ∧ (transform_meter mid (build_meter env ve [])).gas_usage_week = none
    ∧ (transform_meter mid (build_meter env ve [])).gas_usage_month = none
    ∧ (transform_meter mid (build_meter env ve [])).gas_cost_today = none
    ∧ (transform_meter mid (build_meter env ve [])).gas_cost_week = none
    ∧ (transform_meter mid (build_meter env ve [])).gas_cost_month = none
    ∧ (transform_meter mid (build_meter env ve [])).electricity_rate = none
    ∧ (transform_meter mid (build_meter env ve [])).electricity_standing_charge = none
    ∧ (transform_meter mid (build_meter env ve [])).gas_rate = none
    ∧ (transform_meter mid (build_meter env ve [])).gas_standing_charge = none := by
  exact ⟨rfl, rfl, rfl, rfl, rfl, rfl, rfl, rfl, rfl, rfl, rfl, rfl, rfl, rfl, rfl, rfl,
    rfl, rfl, rfl, rfl⟩

/-! ## C8 -/

/-- C8: `_pence_to_gbp` maps `none` to `none` and a value to the value
divided by 100 and rounded to 2 decimals (250 pence to 2.5 GBP), and every
cost field of a meter record is `_pence_to_gbp` of the extracted reading
total for the corresponding cost classifier and window, so a `none`
extraction propagates to a `none` cost field. -/
theorem pence_to_gbp_spec :
    pence_to_gbp none = none
    ∧ pence_to_gbp (some 250) = some (5 / 2)
    ∧ (∀ p : ℚ, pence_to_gbp (some p) = some (roundTo 2 (p / 100)))
    ∧ (∀ (mid : String) (raw : RawMeter),
        (transform_meter mid raw).electricity_cost_today
          = pence_to_gbp (extract_reading_value
              (raw.readings (CLASSIFIER_ELECTRICITY_COST ++ "_today")))
        ∧ (transform_meter mid raw).electricity_cost_week
          = pence_to_gbp (extract_reading_value
              (raw.readings (CLASSIFIER_ELECTRICITY_COST ++ "_week")))
        ∧ (transform_meter mid raw).electricity_cost_month
          = pence_to_gbp (extract_reading_value
              (raw.readings (CLASSIFIER_ELECTRICITY_COST ++ "_month")))
        ∧ (transform_meter mid raw).gas_cost_today
          = pence_to_gbp (extract_reading_value
              (raw.readings (CLASSIFIER_GAS_COST ++ "_today")))
        ∧ (transform_meter mid raw).gas_cost_week
          = pence_to_gbp (extract_reading_value
              (raw.readings (CLASSIFIER_GAS_COST ++ "_week")))
        ∧ (transform_meter mid raw).gas_cost_month
          = pence_to_gbp (extract_reading_value
              (raw.readings (CLASSIFIER_GAS_COST ++ "_month"))))
    ∧ (∀ (mid : String) (raw : RawMeter),
        extract_reading_value (raw.readings (CLASSIFIER_ELECTRICITY_COST ++ "_today")) = none →
        (transform_meter mid raw).electricity_cost_today = none)
    ∧ (∀ (mid : String) (raw : RawMeter),
        extract_reading_value (raw.readings (CLASSIFIER_GAS_COST ++ "_month")) = none →
        (transform_meter mid raw).gas_cost_month = none) := by
  refine ⟨rfl, ?_, fun p => rfl, fun mid raw => ⟨rfl, rfl, rfl, rfl, rfl, rfl⟩, ?_, ?_⟩
  · show some (roundTo 2 ((250 : ℚ) / 100)) = some (5 / 2)
    norm_num [roundTo, rhe]
  · intro mid raw h
    show pence_to_gbp (extract_reading_value
      (raw.readings (CLASSIFIER_ELECTRICITY_COST ++ "_today"))) = none
    rw [h]
    rfl
  · intro mid raw h
    show pence_to_gbp (extract_reading_value
      (raw.readings (CLASSIFIER_GAS_COST ++ "_month"))) = none
    rw [h]
    rfl

theorem pence_to_gbp_spec_witness :
    extract_reading_value (noDataRawMeter.readings (CLASSIFIER_ELECTRICITY_COST ++ "_today"))
        = none
    ∧ (transform_meter "m1" noDataRawMeter).electricity_cost_today = none :=
  ⟨rfl, pence_to_gbp_spec.2.2.2.2.1 "m1" noDataRawMeter rfl⟩

/-! ## C4 and C5: concrete tariff inputs -/

lemma cex_standing_eval :
    (transform_meter "m1" cexRawMeter).electricity_standing_charge = some (4 / 100) := by
  show pence_to_gbp (extract_standing_charge (some cexTariff)) = some (4 / 100)
  norm_num [cexTariff, extract_standing_charge, pence_to_gbp, roundTo, rhe]

lemma cex_rate_eval :
    (transform_meter "m1" cexRawMeter).electricity_rate = some (152345 / 10000) := by
  show extract_tariff_rate (some cexTariff) = some (152345 / 10000)
  norm_num [cexTariff, extract_tariff_rate, roundTo, rhe]

/-! ## C4 -/

/-- C4 as stated is false at standing charge 3.4999 pence: the code first
rounds to 2 decimals in pence (3.5), then converts and rounds again,
publishing 0.04 GBP, while a single pence-to-GBP conversion of the wire
value rounded to 2 decimals gives 0.03 GBP. -/
theorem tariff_conversion_counterexample :
    (transform_meter "m1" cexRawMeter).electricity_standing_charge = some (4 / 100)
    ∧ roundTo 2 ((34999 / 10000 : ℚ) / 100) = 3 / 100
    ∧ (4 / 100 : ℚ) ≠ 3 / 100 :=
  ⟨cex_standing_eval, by norm_num [roundTo, rhe], by norm_num⟩

/-- C4 (amended): for a tariff response with a non-empty `data` list, the
published rate is the first entry `currentRates.rate` rounded to 4
decimals, kept in wire units; the published standing charge is
`currentRates.standingCharge` rounded to 2 decimals in pence and then
converted pence to GBP and rounded to 2 decimals; an absent or empty
tariff response yields `none` for both. -/
theorem tariff_extraction_amended (mid : String) (raw : RawMeter)
    (t : TariffResp) (e : TariffEntry) (tl : List TariffEntry)
    (cr : CurrentRates) (r sc : ℚ)
    (hmap : raw.tariffs CLASSIFIER_ELECTRICITY_CONSUMPTION = some t)
    (hd : t.data = some (e :: tl)) (hcr : e.currentRates = some cr)
    (hr : cr.rate = some r) (hsc : cr.standingCharge = some sc) :
    (transform_meter mid raw).electricity_rate = some (roundTo 4 r)
    ∧ (transform_meter mid raw).electricity_standing_charge
        = some (roundTo 2 (roundTo 2 sc / 100))
    ∧ (∀ raw2 : RawMeter,
        raw2.tariffs CLASSIFIER_ELECTRICITY_CONSUMPTION = none →
        (transform_meter mid raw2).electricity_rate = none
        ∧ (transform_meter mid raw2).electricity_standing_charge = none)
    ∧ (∀ (raw2 : RawMeter) (t2 : TariffResp),
        raw2.tariffs CLASSIFIER_ELECTRICITY_CONSUMPTION = some t2 →
        t2.data = some [] ∨ t2.data = none →
        (transform_meter mid raw2).electricity_rate = none
        ∧ (transform_meter mid raw2).electricity_standing_charge = none) := by
  refine ⟨?_, ?_, ?_, ?_⟩
  · show extract_tariff_rate (raw.tariffs CLASSIFIER_ELECTRICITY_CONSUMPTION)
      = some (roundTo 4 r)
    rw [hmap]
    simp [extract_tariff_rate, hd, hcr, hr]
  · show pence_to_gbp (extract_standing_charge
      (raw.tariffs CLASSIFIER_ELECTRICITY_CONSUMPTION)) = some (roundTo 2 (roundTo 2 sc / 100))
    rw [hmap]
    simp [extract_standing_charge, hd, hcr, hsc, pence_to_gbp]
  · intro raw2 h2
    constructor
    · show extract_tariff_rate (raw2.tariffs CLASSIFIER_ELECTRICITY_CONSUMPTION) = none
      rw [h2]
      rfl
    · show pence_to_gbp (extract_standing_charge
        (raw2.tariffs CLASSIFIER_ELECTRICITY_CONSUMPTION)) = none
      rw [h2]
      rfl
  · intro raw2 t2 h2 hdat
    constructor
    · show extract_tariff_rate (raw2.tariffs CLASSIFIER_ELECTRICITY_CONSUMPTION) = none
      rw [h2]
      rcases hdat with hdat | hdat <;> simp [extract_tariff_rate, hdat]
    · show pence_to_gbp (extract_standing_charge
        (raw2.tariffs CLASSIFIER_ELECTRICITY_CONSUMPTION)) = none
      rw [h2]
      rcases hdat with hdat | hdat <;> simp [extract_standing_charge, hdat, pence_to_gbp]

lemma roundTo4_id_152345 : roundTo 4 (152345 / 10000 : ℚ) = 152345 / 10000 := by
  norm_num [roundTo, rhe]

lemma standing_4567_eval : roundTo 2 (roundTo 2 (4567 : ℚ) / 100) = 4567 / 100 := by
  norm_num [roundTo, rhe]

theorem tariff_extraction_amended_witness :
    exampleRawMeter.tariffs CLASSIFIER_ELECTRICITY_CONSUMPTION = some exampleTariff
    ∧ (transform_meter "m1" exampleRawMeter).electricity_rate = some (152345 / 10000)
    ∧ (transform_meter "m1" exampleRawMeter).electricity_standing_charge
        = some (4567 / 100) := by
  obtain ⟨h1, h2, -, -⟩ :=
    tariff_extraction_amended "m1" exampleRawMeter exampleTariff
      ⟨some ⟨some (152345 / 10000), some 4567⟩⟩ []
      ⟨some (152345 / 10000), some 4567⟩ (152345 / 10000) 4567 rfl rfl rfl rfl rfl
  exact ⟨rfl, h1.trans (congrArg some roundTo4_id_152345),
    h2.trans (congrArg some standing_4567_eval)⟩

/-! ## C5 -/

/-- C5 as stated is false for the tariff-rate field: the published rate
15.2345 is the wire pence value rounded to 4 decimals, not the wire value
converted pence to GBP and rounded to 2 decimals (which would be 0.15). -/
theorem monetary_conversion_counterexample :
    (transform_meter "m1" cexRawMeter).electricity_rate = some (152345 / 10000)
    ∧ roundTo 2 ((152345 / 10000 : ℚ) / 100) = 15 / 100
    ∧ some (152345 / 10000 : ℚ) ≠ some (15 / 100 : ℚ) :=
  ⟨cex_rate_eval, by norm_num [roundTo, rhe], by norm_num⟩

/-- C5 (amended): every cost and standing-charge field of a meter record
is `_pence_to_gbp` of the corresponding extracted pence value, the single
point dividing by 100 and rounding to 2 decimals (so every such field
carries at most 2 decimal places); the tariff-rate fields are kept in
wire pence units rounded to 4 decimals, with no division. -/
theorem monetary_fields_amended (mid : String) (raw : RawMeter) :
    (transform_meter mid raw).electricity_cost_today
      = pence_to_gbp (extract_reading_value
          (raw.readings (CLASSIFIER_ELECTRICITY_COST ++ "_today")))
    ∧ (transform_meter mid raw).electricity_cost_week
      = pence_to_gbp (extract_reading_value
          (raw.readings (CLASSIFIER_ELECTRICITY_COST ++ "_week")))
    ∧ (transform_meter mid raw).electricity_cost_month
      = pence_to_gbp (extract_reading_value
          (raw.readings (CLASSIFIER_ELECTRICITY_COST ++ "_month")))
    ∧ (transform_meter mid raw).gas_cost_today
      = pence_to_gbp (extract_reading_value
          (raw.readings (CLASSIFIER_GAS_COST ++ "_today")))
    ∧ (transform_meter mid raw).gas_cost_week
      = pence_to_gbp (extract_reading_value
          (raw.readings (CLASSIFIER_GAS_COST ++ "_week")))
    ∧ (transform_meter mid raw).gas_cost_month
      = pence_to_gbp (extract_reading_value
          (raw.readings (CLASSIFIER_GAS_COST ++ "_month")))
    ∧ (transform_meter mid raw).electricity_standing_charge
      = pence_to_gbp (extract_standing_charge
          (raw.tariffs CLASSIFIER_ELECTRICITY_CONSUMPTION))
    ∧ (transform_meter mid raw).gas_standing_charge
      = pence_to_gbp (extract_standing_charge
          (raw.tariffs CLASSIFIER_GAS_CONSUMPTION))
    ∧ (transform_meter mid raw).electricity_rate
      = extract_tariff_rate (raw.tariffs CLASSIFIER_ELECTRICITY_CONSUMPTION)
    ∧ (transform_meter mid raw).gas_rate
      = extract_tariff_rate (raw.tariffs CLASSIFIER_GAS_CONSUMPTION)
    ∧ (∀ p q : ℚ, pence_to_gbp (some p) = some q → ∃ m : ℤ, q = m / 100)
    ∧ (∀ (td : Option TariffResp) (q : ℚ),
        extract_tariff_rate td = some q → ∃ m : ℤ, q = m / 10000) := by
  refine ⟨rfl, rfl, rfl, rfl, rfl, rfl, rfl, rfl, rfl, rfl, ?_, ?_⟩
  · intro p q h
    have hq : roundTo 2 (p / 100) = q := by
      simpa [pence_to_gbp] using h
    exact ⟨rhe (p / 100 * 10 ^ 2), by rw [← hq]; norm_num [roundTo]⟩
  · intro td q h
    match td with
    | none => exact absurd h (by simp [extract_tariff_rate])
    | some t =>
      simp only [extract_tariff_rate] at h
      split at h
      · exact absurd h (by simp)
      · split at h
        · exact absurd h (by simp)
        · rename_i r heq
          obtain rfl : roundTo 4 r = q := Option.some.inj h
          exact ⟨rhe (r * 10 ^ 4), by norm_num [roundTo]⟩

theorem monetary_fields_amended_witness :
    pence_to_gbp (some (250 : ℚ)) = some (roundTo 2 ((250 : ℚ) / 100))
    ∧ (transform_meter "m1" cexRawMeter).electricity_rate
        = extract_tariff_rate (cexRawMeter.tariffs CLASSIFIER_ELECTRICITY_CONSUMPTION)
    ∧ (∃ m : ℤ, roundTo 2 ((250 : ℚ) / 100) = m / 100) := by
  obtain ⟨-, -, -, -, -, -, -, -, h9, -, h11, -⟩ := monetary_fields_amended "m1" cexRawMeter
  exact ⟨rfl, h9, h11 250 (roundTo 2 ((250 : ℚ) / 100)) rfl⟩

/-! ## C3 -/

/-- C3: a successful authentication at time T stores expiry
T + TOKEN_LIFETIME_SECONDS; the token counts as expired exactly at and
after T + lifetime - 60 seconds (and always when no token or no expiry is
stored); `_ensure_authenticated` makes exactly one authentication call at
or after that boundary and none before. -/
theorem token_expiry_spec (st st1 : ClientState) (T : Time) (resp : AuthResponse)
    (tok : String) (h : async_authenticate st T resp = (.ok tok, st1)) :
    st1.token_expiry = some (T + TOKEN_LIFETIME_SECONDS)
    ∧ (∀ t : Time, is_token_expired st1 t
        = decide (T + TOKEN_LIFETIME_SECONDS - 60 ≤ t))
    ∧ (∀ (t : Time) (r2 : AuthResponse),
        (ensure_authenticated st1 t r2).2
          = if T + TOKEN_LIFETIME_SECONDS - 60 ≤ t then 1 else 0)
    ∧ (∀ (t : Time) (e : Option Time), is_token_expired ⟨none, e⟩ t = true)
    ∧ (∀ (t : Time) (tk : Option String), is_token_expired ⟨tk, none⟩ t = true) := by
  have hmain : st1.token_expiry = some (T + TOKEN_LIFETIME_SECONDS)
      ∧ ∃ tk : String, tk ≠ "" ∧ st1.token = some tk := by
    cases resp with
    | timeout => simp [async_authenticate] at h
    | connError => simp [async_authenticate] at h
    | status code valid token =>
      simp only [async_authenticate] at h
      split at h
      · simp at h
      · split at h
        · simp at h
        · split at h
          · simp at h
          · split at h
            · simp at h
            · rename_i t
              split at h
              · simp at h
              · rename_i hne
                obtain ⟨h1, h2⟩ := Prod.mk.injEq .. ▸ h
                exact ⟨by rw [← h2], t, hne, by rw [← h2]⟩
  obtain ⟨hexp, tk, hne, htok⟩ := hmain
  have hisexp : ∀ t : Time, is_token_expired st1 t
      = decide (T + TOKEN_LIFETIME_SECONDS - 60 ≤ t) := by
    intro t
    simp [is_token_expired, htok, hexp, hne]
  refine ⟨hexp, hisexp, ?_, ?_, ?_⟩
  · intro t r2
    rw [ensure_authenticated]
    rw [hisexp t]
    by_cases hb : T + TOKEN_LIFETIME_SECONDS - 60 ≤ t
    · simp [hb]
    · simp [hb]
  · intro t e
    rfl
  · intro t tkn
    cases tkn <;> rfl

theorem token_expiry_spec_witness :
    async_authenticate ⟨none, none⟩ 1000 (.status 200 true (some "tk"))
        = (.ok "tk", ⟨some "tk", some 4300⟩)
    ∧ (⟨some "tk", some 4300⟩ : ClientState).token_expiry
        = some (1000 + TOKEN_LIFETIME_SECONDS)
    ∧ is_token_expired ⟨some "tk", some 4300⟩ 4239 = false
    ∧ is_token_expired ⟨some "tk", some 4300⟩ 4240 = true
    ∧ (ensure_authenticated ⟨some "tk", some 4300⟩ 4239 (.status 200 true (some "t2"))).2 = 0
    ∧ (ensure_authenticated ⟨some "tk", some 4300⟩ 4240 (.status 200 true (some "t2"))).2 = 1 := by
  have h := token_expiry_spec ⟨none, none⟩ ⟨some "tk", some 4300⟩ 1000
    (.status 200 true (some "tk")) "tk" rfl
  exact ⟨rfl, h.1, (h.2.1 4239).trans (by decide), (h.2.1 4240).trans (by decide),
    (h.2.2.1 4239 (.status 200 true (some "t2"))).trans (by decide),
    (h.2.2.1 4240 (.status 200 true (some "t2"))).trans (by decide)⟩

/-! ## C2 -/

/-- C2: when the first response of `_api_request` is a 401 or 403 (the
stored token being valid, so no authentication preceded the request), the
token is cleared, `async_authenticate` is called exactly once, on the
cleared state, and when it succeeds the request is retried exactly once:
a second 401/403 yields the authentication error with no further call,
and any other retry status is processed normally. -/
theorem api_request_retry_spec (st st1 : ClientState) (now : Time)
    (aE aR : AuthResponse) (c1 : ℕ) (b1 : String) (resp2 : ReqResponse) (tok : String)
    (hvalid : is_token_expired st now = false)
    (hc1 : c1 = 401 ∨ c1 = 403)
    (hauth : async_authenticate { st with token := none } now aR = (.ok tok, st1)) :
    (api_request st now aE aR (.status c1 b1) resp2).2.2
      = ⟨[{ st with token := none }], 2⟩
    ∧ (api_request st now aE aR (.status c1 b1) resp2).2.1 = st1
    ∧ (api_request st now aE aR (.status c1 b1) resp2).1
      = (match resp2 with
        | .timeout => .error .comm
        | .connError => .error .comm
        | .status c2 b2 =>
          if c2 = 401 ∨ c2 = 403 then .error .auth else process_status c2 b2) := by
  unfold api_request
  rw [hvalid]
  simp only [Bool.false_eq_true, if_false]
  unfold api_request_try
  simp only []
  rw [if_pos hc1, hauth]
  cases resp2 with
  | timeout => simp
  | connError => simp
  | status c2 b2 =>
    by_cases h2 : c2 = 401 ∨ c2 = 403
    · simp [h2]
    · simp [h2]

theorem api_request_retry_spec_witness :
    is_token_expired ⟨some "tok", some 10000⟩ 100 = false
    ∧ async_authenticate ⟨none, some 10000⟩ 100 (.status 200 true (some "t2"))
        = (.ok "t2", ⟨some "t2", some 3400⟩)
    ∧ (api_request ⟨some "tok", some 10000⟩ 100 .connError
        (.status 200 true (some "t2")) (.status 401 "x") (.status 403 "y")).2.2
        = ⟨[⟨none, some 10000⟩], 2⟩
    ∧ (api_request ⟨some "tok", some 10000⟩ 100 .connError
        (.status 200 true (some "t2")) (.status 401 "x") (.status 403 "y")).1
        = .error .auth := by
  have h := api_request_retry_spec ⟨some "tok", some 10000⟩ ⟨some "t2", some 3400⟩ 100
    .connError (.status 200 true (some "t2")) 401 "x" (.status 403 "y") "t2"
    (by decide) (Or.inl rfl) rfl
  exact ⟨by decide, rfl, h.1, h.2.2.trans (by rfl)⟩

/-! ## C9 -/

lemma string_append_ne (c : String) {a b : String} (h : a.data ≠ b.data) :
    c ++ a ≠ c ++ b := by
  intro he
  exact h (List.append_cancel_left
    (show c.data ++ a.data = c.data ++ b.data from congrArg String.data he))

lemma get_data_meters_ok (env : Env) (ves : List VirtualEntity)
    (h : ∀ ve ∈ ves, ∀ vid, ve.veId = some vid → vid ≠ "" →
      ∃ rs, env.resources vid = .ok rs) :
    ∃ ms, get_data_meters env ves = .ok ms
      ∧ ms.map Prod.fst = ves.filterMap veKey := by
  induction ves with
  | nil => exact ⟨[], rfl, rfl⟩
  | cons ve rest ih =>
    obtain ⟨ms, hms, hmap⟩ := ih fun v hv => h v (List.mem_cons_of_mem _ hv)
    cases hid : ve.veId with
    | none =>
      exact ⟨ms, by simp [get_data_meters, hid, hms],
        by simp [List.filterMap_cons, veKey, hid, hmap]⟩
    | some vid =>
      by_cases hemp : vid = ""
      · subst hemp
        exact ⟨ms, by simp [get_data_meters, hid, hms],
          by simp [List.filterMap_cons, veKey, hid, hmap]⟩
      · obtain ⟨rs, hrs⟩ := h ve (List.mem_cons_self _ _) vid hid hemp
        refine ⟨(vid, build_meter env ve rs) :: ms, ?_, ?_⟩
        · simp [get_data_meters, hid, hemp, hrs, hms]
        · simp [List.filterMap_cons, veKey, hid, hemp, hmap]

/-- C9: sub-fetch outcomes never abort `async_get_data`: whenever the
virtual-entity fetch and the per-entity resource fetches succeed, the call
returns a result covering every virtual entity with a truthy `veId`, no
matter how the per-resource readings/tariff fetches behave; and for a
fetched resource each readings/tariff/current key is present exactly when
its own sub-fetch succeeded, an erroring sub-fetch (of any error kind)
only omitting that key. -/
theorem get_data_best_effort_spec :
    (∀ (env : Env) (ves : List VirtualEntity),
      env.virtual_entities = .ok ves →
      (∀ ve ∈ ves, ∀ vid, ve.veId = some vid → vid ≠ "" →
        ∃ rs, env.resources vid = .ok rs) →
      ∃ ms, async_get_data env = .ok ms ∧ ms.map Prod.fst = ves.filterMap veKey)
    ∧ (∀ (env : Env) (ve : VirtualEntity) (r : Resource) (rid : String),
        r.resourceId = some rid → rid ≠ "" →
        (build_meter env ve [r]).readings (r.classifier.getD "" ++ "_today")
            = (env.readings rid .today).toOption
        ∧ (build_meter env ve [r]).readings (r.classifier.getD "" ++ "_week")
            = (env.readings rid .week).toOption
        ∧ (build_meter env ve [r]).readings (r.classifier.getD "" ++ "_month")
            = (env.readings rid .month).toOption
        ∧ (strContains (r.classifier.getD "") "cost" = false →
            (build_meter env ve [r]).current (r.classifier.getD "")
              = (env.readings rid .pt1m).toOption
            ∧ (build_meter env ve [r]).tariffs (r.classifier.getD "")
              = (env.tariff rid).toOption)
        ∧ (strContains (r.classifier.getD "") "cost" = true →
            (build_meter env ve [r]).current (r.classifier.getD "") = none
            ∧ (build_meter env ve [r]).tariffs (r.classifier.getD "") = none)) := by
  constructor
  · intro env ves hves h
    obtain ⟨ms, hms, hmap⟩ := get_data_meters_ok env ves h
    exact ⟨ms, by simp [async_get_data, hves, hms], hmap⟩
  · intro env ve r rid hrid hne
    have hTW : (r.classifier.getD "") ++ "_today" ≠ (r.classifier.getD "") ++ "_week" :=
      string_append_ne _ (by decide)
    have hTM : (r.classifier.getD "") ++ "_today" ≠ (r.classifier.getD "") ++ "_month" :=
      string_append_ne _ (by decide)
    have hWM : (r.classifier.getD "") ++ "_week" ≠ (r.classifier.getD "") ++ "_month" :=
      string_append_ne _ (by decide)
    have hWT := Ne.symm hTW
    have hMT := Ne.symm hTM
    have hMW := Ne.symm hWM
    by_cases hc : strContains (r.classifier.getD "") "cost" = true <;>
      cases h1 : env.readings rid .pt1m <;>
      cases h2 : env.readings rid .today <;>
      cases h3 : env.readings rid .week <;>
      cases h4 : env.readings rid .month <;>
      cases h5 : env.tariff rid <;>
      simp [build_meter, process_resource, hrid, hne, hc, h1, h2, h3, h4, h5,
        mapSet, emptyRawMeter, Except.toOption, hTW, hTM, hWM, hWT, hMT, hMW]

theorem get_data_best_effort_spec_witness :
    (∃ ms, async_get_data witnessEnv = .ok ms ∧ ms.map Prod.fst = ["ve1", "ve2"])
    ∧ (build_meter witnessEnv ⟨some "ve1", some "Home", none⟩
        [⟨some "r1", some "electricity.consumption"⟩]).readings
        ("electricity.consumption" ++ "_today") = some ⟨some [[some 0, some 1]]⟩
    ∧ (build_meter witnessEnv ⟨some "ve1", some "Home", none⟩
        [⟨some "r1", some "electricity.consumption"⟩]).readings
        ("electricity.consumption" ++ "_week") = none
    ∧ (build_meter witnessEnv ⟨some "ve1", some "Home", none⟩
        [⟨some "r1", some "electricity.consumption"⟩]).readings
        ("electricity.consumption" ++ "_month") = none := by
  obtain ⟨hcov, hres⟩ := get_data_best_effort_spec
  obtain ⟨h2a, h2b, h2c, -, -⟩ := hres witnessEnv ⟨some "ve1", some "Home", none⟩
    ⟨some "r1", some "electricity.consumption"⟩ "r1" rfl (by decide)
  obtain ⟨ms, hms, hmap⟩ := hcov witnessEnv
    [⟨some "ve1", some "Home", none⟩, ⟨some "ve2", none, none⟩] rfl
    (fun ve hve vid hvid hne => ⟨[⟨some "r1", some "electricity.consumption"⟩], rfl⟩)
  exact ⟨⟨ms, hms, hmap.trans (by rfl)⟩, h2a.trans (by rfl), h2b.trans (by rfl),
    h2c.trans (by rfl)⟩

end HildebrandGlow
